import Mathlib

/-!
Verification of the `dyn_formatting` crate (`src/lib.rs`).

The crate exports a single function `dynamic_format(pattern, dictionary)`
that performs Python-style runtime formatting of `\x7bkey\x7d` placeholders
with `\x7b\x7b` / `\x7d\x7d` escapes, plus an error type `DynamicFormatError`
with `Display` rendering.

Embedding conventions:
- Rust `&str` / `String` values are embedded as `List Char` (the scanner
  iterates `pattern.chars()`, i.e. Unicode scalar values, and positions are
  character indices, so a character list is the exact data the code works
  over).
- The `HashMap<&str, &str>` dictionary is embedded as an association list
  `List (List Char × List Char)`; `HashMap::get` becomes `List.lookup`, and
  the `dictionary.iter().map(..).collect()` snapshot taken for `KeyError`
  entries becomes the list itself (an iteration order).
- `Result<String, Box<DynamicFormatError>>` becomes
  `Except DynamicFormatError (List Char)` (the `Box` is only allocation).
-/

/-- The characters of a Rust string, used for all text in the embedding. -/
abbrev Str := List Char

/-- Kinds of error (`enum DynamicFormatErrorKind` in `src/lib.rs`). -/
inductive DynamicFormatErrorKind where
  /-- The token (formatting grammar) is wrong. -/
  | TokenError (desc : Str)
  /-- The key (in braces) is not found in the dictionary;
  `entries` snapshots the dictionary for help information. -/
  | KeyError (key : Str) (entries : List (Str × Str))
deriving DecidableEq, Repr

/-- Error value (`struct DynamicFormatError` in `src/lib.rs`):
the offending pattern, the 0-indexed character position, and the kind. -/
structure DynamicFormatError where
  pattern : Str
  pos : Nat
  kind : DynamicFormatErrorKind
deriving DecidableEq, Repr

/-- Description string `"Unmatched token \x27\x7b\x27"` used by the
`token_error!` macro for unmatched open braces. -/
def unmatchedOpenDesc : Str := "Unmatched token \x27\x7b\x27".toList

/-- Description string `"Unmatched token \x27\x7d\x27"` used by the
`token_error!` macro for unmatched close braces. -/
def unmatchedCloseDesc : Str := "Unmatched token \x27\x7d\x27".toList

/-- The `for (i, c) in chars.iter().enumerate()` loop of `dynamic_format`
together with the trailing finalization checks (src/lib.rs lines 91-148).

State threaded exactly as in the Rust code: the remaining characters with
the index `i` of the next one, the output accumulator `ans`, the two
pending-brace markers `left_brace`/`right_brace` (a `(bool, usize)` pair,
reset to `(false, 0)`), and the key accumulator `key`. -/
def scanLoop (pattern : Str) (dictionary : List (Str × Str)) :
    Str → Nat → Str → Bool × Nat → Bool × Nat → Str →
    Except DynamicFormatError Str
  | [], _, ans, leftBrace, rightBrace, _ =>
    if leftBrace.1 then
      .error ⟨pattern, leftBrace.2, .TokenError unmatchedOpenDesc⟩
    else if rightBrace.1 then
      .error ⟨pattern, rightBrace.2, .TokenError unmatchedCloseDesc⟩
    else
      .ok ans
  | c :: cs, i, ans, leftBrace, rightBrace, key =>
    if c = '\x7b' then
      if leftBrace.1 then
        if leftBrace.2 + 1 = i then
          scanLoop pattern dictionary cs (i + 1) (ans ++ ['\x7b'])
            (false, 0) rightBrace key
        else
          .error ⟨pattern, leftBrace.2, .TokenError unmatchedOpenDesc⟩
      else
        scanLoop pattern dictionary cs (i + 1) ans (true, i) rightBrace key
    else if c = '\x7d' then
      if rightBrace.1 then
        if rightBrace.2 + 1 = i then
          scanLoop pattern dictionary cs (i + 1) (ans ++ ['\x7d'])
            leftBrace (false, 0) key
        else
          .error ⟨pattern, rightBrace.2, .TokenError unmatchedCloseDesc⟩
      else if leftBrace.1 then
        match List.lookup key dictionary with
        | some s =>
          scanLoop pattern dictionary cs (i + 1) (ans ++ s)
            (false, 0) rightBrace []
        | none =>
          .error ⟨pattern, leftBrace.2, .KeyError key dictionary⟩
      else
        scanLoop pattern dictionary cs (i + 1) ans leftBrace (true, i) key
    else
      if leftBrace.1 then
        scanLoop pattern dictionary cs (i + 1) ans leftBrace rightBrace
          (key ++ [c])
      else
        scanLoop pattern dictionary cs (i + 1) (ans ++ [c]) leftBrace
          rightBrace key

/-- `pub fn dynamic_format` (src/lib.rs lines 68-149): the fast path for
brace-free patterns, then the character scan from the initial state. -/
def dynamic_format (pattern : Str) (dictionary : List (Str × Str)) :
    Except DynamicFormatError Str :=
  if pattern.contains '\x7b' = false ∧ pattern.contains '\x7d' = false then
    .ok pattern
  else
    scanLoop pattern dictionary pattern 0 [] (false, 0) (false, 0) []

/-- One line `- <key>: <value>` of the `KeyError` help text
(the `format!("- \x7b\x7d: \x7b\x7d", key, value)` closure). -/
def entryLine (p : Str × Str) : Str :=
  "- ".toList ++ p.1 ++ ": ".toList ++ p.2

/-- `impl Display for DynamicFormatError` (src/lib.rs lines 180-205),
rendered to a character list. Note the Rust code interpolates `self.pos`
for `TokenError` but `self.pos + 1` for `KeyError`. -/
def displayError (e : DynamicFormatError) : Str :=
  match e.kind with
  | .TokenError desc =>
    "Parse arguments failed: Token Error (".toList ++ desc ++
      ") when parsing pattern \"".toList ++ e.pattern ++
      "\" at pos ".toList ++ (Nat.repr e.pos).toList ++ ".".toList
  | .KeyError key entries =>
    "Parse arguments failed: Key Not Found (key: \"".toList ++ key ++
      "\") when parsing pattern \"".toList ++ e.pattern ++
      "\" at pos ".toList ++ (Nat.repr (e.pos + 1)).toList ++
      ".\nHelp: These are valid key-value pairs:\n".toList ++
      List.intercalate "\n".toList (entries.map entryLine)

instance : DecidableEq (Except DynamicFormatError Str) := fun a b =>
  match a, b with
  | .ok x, .ok y =>
    if h : x = y then isTrue (by rw [h])
    else isFalse (fun hh => h (Except.ok.inj hh))
  | .error e, .error f =>
    if h : e = f then isTrue (by rw [h])
    else isFalse (fun hh => h (Except.error.inj hh))
  | .ok _, .error _ => isFalse (fun hh => Except.noConfusion hh)
  | .error _, .ok _ => isFalse (fun hh => Except.noConfusion hh)

/-! ### Single-step unfolding lemmas for the scan loop

One lemma per branch of the `for` loop body, matching the cases of
src/lib.rs lines 92-138. -/

theorem scanLoop_open_fresh (p : Str) (d : List (Str × Str)) (cs : Str)
    (i : Nat) (ans : Str) (n : Nat) (rb : Bool × Nat) (key : Str) :
    scanLoop p d ('\x7b' :: cs) i ans (false, n) rb key =
      scanLoop p d cs (i + 1) ans (true, i) rb key := rfl

theorem scanLoop_open_escape (p : Str) (d : List (Str × Str)) (cs : Str)
    (i : Nat) (ans : Str) (j : Nat) (rb : Bool × Nat) (key : Str)
    (h : j + 1 = i) :
    scanLoop p d ('\x7b' :: cs) i ans (true, j) rb key =
      scanLoop p d cs (i + 1) (ans ++ ['\x7b']) (false, 0) rb key := by
  simp [scanLoop, h]

theorem scanLoop_open_nonadjacent (p : Str) (d : List (Str × Str)) (cs : Str)
    (i : Nat) (ans : Str) (j : Nat) (rb : Bool × Nat) (key : Str)
    (h : ¬ j + 1 = i) :
    scanLoop p d ('\x7b' :: cs) i ans (true, j) rb key =
      .error ⟨p, j, .TokenError unmatchedOpenDesc⟩ := by
  simp [scanLoop, h]

theorem scanLoop_close_fresh (p : Str) (d : List (Str × Str)) (cs : Str)
    (i : Nat) (ans : Str) (n m : Nat) (key : Str) :
    scanLoop p d ('\x7d' :: cs) i ans (false, n) (false, m) key =
      scanLoop p d cs (i + 1) ans (false, n) (true, i) key := rfl

theorem scanLoop_close_escape (p : Str) (d : List (Str × Str)) (cs : Str)
    (i : Nat) (ans : Str) (lb : Bool × Nat) (j : Nat) (key : Str)
    (h : j + 1 = i) :
    scanLoop p d ('\x7d' :: cs) i ans lb (true, j) key =
      scanLoop p d cs (i + 1) (ans ++ ['\x7d']) lb (false, 0) key := by
  simp [scanLoop, h]

theorem scanLoop_close_nonadjacent (p : Str) (d : List (Str × Str)) (cs : Str)
    (i : Nat) (ans : Str) (lb : Bool × Nat) (j : Nat) (key : Str)
    (h : ¬ j + 1 = i) :
    scanLoop p d ('\x7d' :: cs) i ans lb (true, j) key =
      .error ⟨p, j, .TokenError unmatchedCloseDesc⟩ := by
  simp [scanLoop, h]

theorem scanLoop_close_placeholder (p : Str) (d : List (Str × Str)) (cs : Str)
    (i : Nat) (ans : Str) (j m : Nat) (key : Str) :
    scanLoop p d ('\x7d' :: cs) i ans (true, j) (false, m) key =
      match List.lookup key d with
      | some s => scanLoop p d cs (i + 1) (ans ++ s) (false, 0) (false, m) []
      | none => .error ⟨p, j, .KeyError key d⟩ := rfl

theorem scanLoop_other_in_key (p : Str) (d : List (Str × Str)) (c : Char)
    (cs : Str) (i : Nat) (ans : Str) (j : Nat) (rb : Bool × Nat) (key : Str)
    (hc1 : c ≠ '\x7b') (hc2 : c ≠ '\x7d') :
    scanLoop p d (c :: cs) i ans (true, j) rb key =
      scanLoop p d cs (i + 1) ans (true, j) rb (key ++ [c]) := by
  simp [scanLoop, hc1, hc2]

theorem scanLoop_other_literal (p : Str) (d : List (Str × Str)) (c : Char)
    (cs : Str) (i : Nat) (ans : Str) (n : Nat) (rb : Bool × Nat) (key : Str)
    (hc1 : c ≠ '\x7b') (hc2 : c ≠ '\x7d') :
    scanLoop p d (c :: cs) i ans (false, n) rb key =
      scanLoop p d cs (i + 1) (ans ++ [c]) (false, n) rb key := by
  simp [scanLoop, hc1, hc2]

/-- Scanning a run of non-brace characters while an open brace is pending
appends the run to the key accumulator and advances the index. -/
theorem scanLoop_key_accum (p : Str) (d : List (Str × Str)) :
    ∀ (ks : Str), (∀ c ∈ ks, c ≠ '\x7b' ∧ c ≠ '\x7d') →
    ∀ (cs : Str) (i : Nat) (ans : Str) (j : Nat) (rb : Bool × Nat) (key : Str),
      scanLoop p d (ks ++ cs) i ans (true, j) rb key =
        scanLoop p d cs (i + ks.length) ans (true, j) rb (key ++ ks) := by
  intro ks
  induction ks with
  | nil => intro _ cs i ans j rb key; simp
  | cons c ks ih =>
    intro h cs i ans j rb key
    have hc := h c (List.mem_cons_self c ks)
    rw [List.cons_append,
      scanLoop_other_in_key p d c (ks ++ cs) i ans j rb key hc.1 hc.2,
      ih (fun x hx => h x (List.mem_cons_of_mem c hx)) cs (i + 1) ans j rb
        (key ++ [c])]
    have h1 : i + 1 + ks.length = i + (c :: ks).length := by
      simp [List.length_cons]; omega
    have h2 : key ++ [c] ++ ks = key ++ c :: ks := by simp
    rw [h1, h2]

/-- End-of-input with an open brace still pending (src/lib.rs lines 141-143):
checked first, regardless of the close-brace marker. -/
theorem scanLoop_nil_open_pending (p : Str) (d : List (Str × Str)) (i : Nat)
    (ans : Str) (j : Nat) (rb : Bool × Nat) (key : Str) :
    scanLoop p d [] i ans (true, j) rb key =
      .error ⟨p, j, .TokenError unmatchedOpenDesc⟩ := rfl

/-- End-of-input with only a close brace pending (src/lib.rs lines 144-146). -/
theorem scanLoop_nil_close_pending (p : Str) (d : List (Str × Str)) (i : Nat)
    (ans : Str) (n j : Nat) (key : Str) :
    scanLoop p d [] i ans (false, n) (true, j) key =
      .error ⟨p, j, .TokenError unmatchedCloseDesc⟩ := rfl

/-- End-of-input with no pending brace returns the accumulated output
(src/lib.rs line 148). -/
theorem scanLoop_nil_ok (p : Str) (d : List (Str × Str)) (i : Nat)
    (ans : Str) (n m : Nat) (key : Str) :
    scanLoop p d [] i ans (false, n) (false, m) key = .ok ans := rfl

/-- C1: every well-formed placeholder whose key is in the dictionary is
replaced by the associated value (a `\x7b`, a brace-free key present in the
dictionary, then a `\x7d` scanned from a clean state append the value to the
output and continue scanning), and the same key may be referenced several
times: `dynamic_format("\x7ba\x7d-\x7bb\x7d", \x7ba:"1", b:"2"\x7d) = Ok("1-2")` and
`dynamic_format("\x7ba\x7d\x7ba\x7d", \x7ba:"x"\x7d) = Ok("xx")`. -/
theorem substitution_replaces_keys :
    (∀ (p : Str) (d : List (Str × Str)) (k v cs : Str) (i : Nat) (ans : Str),
      (∀ c ∈ k, c ≠ '\x7b' ∧ c ≠ '\x7d') →
      List.lookup k d = some v →
      scanLoop p d ('\x7b' :: (k ++ '\x7d' :: cs)) i ans
          (false, 0) (false, 0) [] =
        scanLoop p d cs (i + k.length + 2) (ans ++ v)
          (false, 0) (false, 0) []) ∧
    dynamic_format "\x7ba\x7d-\x7bb\x7d".toList
        [("a".toList, "1".toList), ("b".toList, "2".toList)] =
      .ok "1-2".toList ∧
    dynamic_format "\x7ba\x7d\x7ba\x7d".toList [("a".toList, "x".toList)] =
      .ok "xx".toList := by
  refine ⟨?_, by decide, by decide⟩
  intro p d k v cs i ans hk hv
  rw [scanLoop_open_fresh, scanLoop_key_accum p d k hk ('\x7d' :: cs) (i + 1)
    ans i (false, 0) [], List.nil_append,
    scanLoop_close_placeholder, hv]
  have : i + 1 + k.length + 1 = i + k.length + 2 := by omega
  rw [this]

/-- Witness for C1: the general conjunct applied to the one-placeholder
pattern `\x7bk\x7d` with dictionary `\x7bk: "v"\x7d`. -/
theorem substitution_replaces_keys_witness :
    List.lookup "k".toList [("k".toList, "v".toList)] = some "v".toList ∧
    scanLoop "\x7bk\x7d".toList [("k".toList, "v".toList)]
        ('\x7b' :: ("k".toList ++ '\x7d' :: [])) 0 [] (false, 0) (false, 0) [] =
      scanLoop "\x7bk\x7d".toList [("k".toList, "v".toList)] []
        (0 + "k".toList.length + 2) ([] ++ "v".toList) (false, 0) (false, 0) [] :=
  ⟨by decide,
    substitution_replaces_keys.1 _ _ _ _ _ _ _ (by decide) (by decide)⟩

/-- C2: an opening brace immediately adjacent to a pending opening brace
emits a single literal `\x7b` (and likewise `\x7d\x7d` emits a literal `\x7d`),
escapes resolving left to right in one pass:
`dynamic_format("\x7b\x7b", \x7b\x7d) = Ok("\x7b")`,
`dynamic_format("\x7d\x7d", \x7b\x7d) = Ok("\x7d")`, and
`dynamic_format("\x7b\x7b\x7b\x7bx\x7d\x7d", \x7b\x7d) = Ok("\x7b\x7bx\x7d")`. -/
theorem escaped_brace_literal :
    (∀ (p : Str) (d : List (Str × Str)) (cs : Str) (i : Nat) (ans : Str)
        (j : Nat) (rb : Bool × Nat) (key : Str), j + 1 = i →
      scanLoop p d ('\x7b' :: cs) i ans (true, j) rb key =
        scanLoop p d cs (i + 1) (ans ++ ['\x7b']) (false, 0) rb key) ∧
    (∀ (p : Str) (d : List (Str × Str)) (cs : Str) (i : Nat) (ans : Str)
        (lb : Bool × Nat) (j : Nat) (key : Str), j + 1 = i →
      scanLoop p d ('\x7d' :: cs) i ans lb (true, j) key =
        scanLoop p d cs (i + 1) (ans ++ ['\x7d']) lb (false, 0) key) ∧
    dynamic_format "\x7b\x7b".toList [] = .ok "\x7b".toList ∧
    dynamic_format "\x7d\x7d".toList [] = .ok "\x7d".toList ∧
    dynamic_format "\x7b\x7b\x7b\x7bx\x7d\x7d".toList [] =
      .ok "\x7b\x7bx\x7d".toList :=
  ⟨fun p d cs i ans j rb key h =>
      scanLoop_open_escape p d cs i ans j rb key h,
    fun p d cs i ans lb j key h =>
      scanLoop_close_escape p d cs i ans lb j key h,
    by decide, by decide, by decide⟩

/-- Witness for C2: both escape steps applied at concrete adjacent
positions. -/
theorem escaped_brace_literal_witness :
    (0 + 1 = 1 ∧
      scanLoop [] [] ['\x7b'] 1 [] (true, 0) (false, 0) [] =
        scanLoop [] [] [] (1 + 1) ([] ++ ['\x7b']) (false, 0) (false, 0) []) ∧
    (4 + 1 = 5 ∧
      scanLoop [] [] ['\x7d'] 5 ['a'] (false, 0) (true, 4) [] =
        scanLoop [] [] [] (5 + 1) (['a'] ++ ['\x7d']) (false, 0) (false, 0) []) :=
  ⟨⟨rfl, escaped_brace_literal.1 _ _ _ _ _ _ _ _ rfl⟩,
    ⟨rfl, escaped_brace_literal.2.1 _ _ _ _ _ _ _ _ rfl⟩⟩

/-- C3: when a placeholder's closing `\x7d` is reached with a key absent from
the dictionary, the result is a `KeyError` carrying exactly that key, the
position of the placeholder's opening `\x7b` as a 0-indexed scalar-character
offset, and the full dictionary as its entries; the remaining characters
`cs` do not influence the result (processing terminates immediately).
Concretely, `"é\x7bx\x7dzz"` fails at character offset 1 (the
offset of `\x7b` counted in scalar characters, after the two-byte `é`). -/
theorem missing_key_keyerror :
    (∀ (p : Str) (d : List (Str × Str)) (cs : Str) (i : Nat) (ans : Str)
        (j m : Nat) (key : Str),
      List.lookup key d = none →
      scanLoop p d ('\x7d' :: cs) i ans (true, j) (false, m) key =
        .error ⟨p, j, .KeyError key d⟩) ∧
    dynamic_format "é\x7bx\x7dzz".toList [] =
      .error ⟨"é\x7bx\x7dzz".toList, 1, .KeyError "x".toList []⟩ := by
  refine ⟨?_, by decide⟩
  intro p d cs i ans j m key h
  rw [scanLoop_close_placeholder, h]

/-- Witness for C3: the general conjunct applied with key `"x"` and an
empty dictionary, with trailing characters present and ignored. -/
theorem missing_key_keyerror_witness :
    List.lookup "x".toList ([] : List (Str × Str)) = none ∧
    scanLoop "\x7bx\x7dzz".toList [] ('\x7d' :: "zz".toList) 2 []
        (true, 0) (false, 0) "x".toList =
      .error ⟨"\x7bx\x7dzz".toList, 0, .KeyError "x".toList []⟩ :=
  ⟨by decide, missing_key_keyerror.1 _ _ _ _ _ _ _ _ (by decide)⟩

/-- C4: a `\x7b` scanned while an open brace is pending non-adjacently, or a
`\x7d` scanned while a close brace is pending non-adjacently, immediately
produces a `TokenError` whose position is that of the earlier pending brace
`j`, not of the brace just scanned at `i`. -/
theorem nonadjacent_brace_tokenerror :
    (∀ (p : Str) (d : List (Str × Str)) (cs : Str) (i : Nat) (ans : Str)
        (j : Nat) (rb : Bool × Nat) (key : Str), j + 1 ≠ i →
      scanLoop p d ('\x7b' :: cs) i ans (true, j) rb key =
        .error ⟨p, j, .TokenError unmatchedOpenDesc⟩) ∧
    (∀ (p : Str) (d : List (Str × Str)) (cs : Str) (i : Nat) (ans : Str)
        (lb : Bool × Nat) (j : Nat) (key : Str), j + 1 ≠ i →
      scanLoop p d ('\x7d' :: cs) i ans lb (true, j) key =
        .error ⟨p, j, .TokenError unmatchedCloseDesc⟩) ∧
    dynamic_format "\x7bna\x7bme\x7d324".toList [] =
      .error ⟨"\x7bna\x7bme\x7d324".toList, 0,
        .TokenError unmatchedOpenDesc⟩ ∧
    dynamic_format "name\x7d3\x7d24".toList [] =
      .error ⟨"name\x7d3\x7d24".toList, 4,
        .TokenError unmatchedCloseDesc⟩ :=
  ⟨fun p d cs i ans j rb key h =>
      scanLoop_open_nonadjacent p d cs i ans j rb key h,
    fun p d cs i ans lb j key h =>
      scanLoop_close_nonadjacent p d cs i ans lb j key h,
    by decide, by decide⟩

/-- Witness for C4: both non-adjacent cases at concrete positions
(pending brace at 0, current brace at 3). -/
theorem nonadjacent_brace_tokenerror_witness :
    (0 + 1 ≠ 3 ∧
      scanLoop [] [] ['\x7b'] 3 [] (true, 0) (false, 0) "na".toList =
        .error ⟨[], 0, .TokenError unmatchedOpenDesc⟩) ∧
    (0 + 1 ≠ 3 ∧
      scanLoop [] [] ['\x7d'] 3 [] (false, 0) (true, 0) [] =
        .error ⟨[], 0, .TokenError unmatchedCloseDesc⟩) :=
  ⟨⟨by decide, nonadjacent_brace_tokenerror.1 _ _ _ _ _ _ _ _ (by decide)⟩,
    ⟨by decide, nonadjacent_brace_tokenerror.2.1 _ _ _ _ _ _ _ _ (by decide)⟩⟩

/-- C5: after the last character, a still-pending open-brace marker yields a
`TokenError` at its position — regardless of the close-brace marker, so the
pending-open check takes precedence; otherwise a still-pending close-brace
marker yields a `TokenError` at its position; otherwise the result is `Ok`
of the accumulated output. Concretely, `"\x7da\x7b"` ends with both markers
pending (close at 0, open at 2) and reports the open brace at position 2. -/
theorem end_of_input_finalization :
    (∀ (p : Str) (d : List (Str × Str)) (i : Nat) (ans : Str) (j : Nat)
        (rb : Bool × Nat) (key : Str),
      scanLoop p d [] i ans (true, j) rb key =
        .error ⟨p, j, .TokenError unmatchedOpenDesc⟩) ∧
    (∀ (p : Str) (d : List (Str × Str)) (i : Nat) (ans : Str) (n j : Nat)
        (key : Str),
      scanLoop p d [] i ans (false, n) (true, j) key =
        .error ⟨p, j, .TokenError unmatchedCloseDesc⟩) ∧
    (∀ (p : Str) (d : List (Str × Str)) (i : Nat) (ans : Str) (n m : Nat)
        (key : Str),
      scanLoop p d [] i ans (false, n) (false, m) key = .ok ans) ∧
    dynamic_format "\x7da\x7b".toList [] =
      .error ⟨"\x7da\x7b".toList, 2, .TokenError unmatchedOpenDesc⟩ :=
  ⟨fun p d i ans j rb key => scanLoop_nil_open_pending p d i ans j rb key,
    fun p d i ans n j key => scanLoop_nil_close_pending p d i ans n j key,
    fun p d i ans n m key => scanLoop_nil_ok p d i ans n m key,
    by decide⟩

/-- C7: for every pattern containing neither `\x7b` nor `\x7d` and every
dictionary, `dynamic_format` returns `Ok` of the pattern unchanged (the
fast path of src/lib.rs lines 72-74). -/
theorem brace_free_identity (p : Str) (d : List (Str × Str))
    (h1 : '\x7b' ∉ p) (h2 : '\x7d' ∉ p) :
    dynamic_format p d = .ok p := by
  unfold dynamic_format
  rw [if_pos]
  constructor <;> simp [List.contains, List.elem_eq_mem, h1, h2]

/-- Witness for C7: a brace-free pattern with a non-empty dictionary. -/
theorem brace_free_identity_witness :
    dynamic_format "abc-def".toList [("abc".toList, "z".toList)] =
      .ok "abc-def".toList :=
  brace_free_identity _ _ (by decide) (by decide)

/-- C9: an empty placeholder is a lookup of the empty-string key: for every
dictionary `d`, `dynamic_format "\x7b\x7d" d` is `Ok v` when `d` maps the
empty string to `v`, and otherwise a `KeyError` whose key is the empty
string at position 0 with `d` as entries. -/
theorem empty_placeholder_lookup (d : List (Str × Str)) :
    (∀ v : Str, List.lookup ([] : Str) d = some v →
      dynamic_format "\x7b\x7d".toList d = .ok v) ∧
    (List.lookup ([] : Str) d = none →
      dynamic_format "\x7b\x7d".toList d =
        .error ⟨"\x7b\x7d".toList, 0, .KeyError [] d⟩) := by
  have h0 : dynamic_format "\x7b\x7d".toList d =
      match List.lookup ([] : Str) d with
      | some s => Except.ok ([] ++ s)
      | none => .error ⟨"\x7b\x7d".toList, 0, .KeyError [] d⟩ := rfl
  constructor
  · intro v hv
    rw [h0, hv]
    simp
  · intro hn
    rw [h0, hn]

/-- Witness for C9: both branches at concrete dictionaries, one containing
the empty key and one not. -/
theorem empty_placeholder_lookup_witness :
    dynamic_format "\x7b\x7d".toList [(([] : Str), "v".toList)] =
      .ok "v".toList ∧
    dynamic_format "\x7b\x7d".toList [("a".toList, "1".toList)] =
      .error ⟨"\x7b\x7d".toList, 0,
        .KeyError [] [("a".toList, "1".toList)]⟩ :=
  ⟨(empty_placeholder_lookup _).1 _ (by decide),
    (empty_placeholder_lookup _).2 (by decide)⟩

/-- C10: `dynamic_format` is a total function of its two arguments: for
every pattern (any sequence of Unicode scalar characters, including the
empty one) and every dictionary it returns either an `Ok` value or an
`Err` value — there is no third outcome and evaluation always completes. -/
theorem dynamic_format_total (p : Str) (d : List (Str × Str)) :
    (∃ s, dynamic_format p d = .ok s) ∨
      (∃ e, dynamic_format p d = .error e) := by
  cases h : dynamic_format p d with
  | ok s => exact Or.inl ⟨s, rfl⟩
  | error e => exact Or.inr ⟨e, rfl⟩

set_option maxRecDepth 20000 in
/-- Counterexample to C6 as stated: for the `KeyError` produced from pattern
`"\x7bx\x7d"` at stored position 0, the human-readable rendering does not
contain `at pos 0.` — it contains `at pos 1.`, i.e. the stored position
plus one — so the rendered position does not equal the stored 0-indexed
position for both error kinds. -/
theorem display_pos_marker_counterexample :
    ¬ (("at pos ".toList ++ (Nat.repr 0).toList ++ ".".toList) <:+:
        displayError ⟨"\x7bx\x7d".toList, 0, .KeyError "x".toList []⟩) ∧
      ("at pos ".toList ++ (Nat.repr 1).toList ++ ".".toList) <:+:
        displayError ⟨"\x7bx\x7d".toList, 0, .KeyError "x".toList []⟩ := by
  constructor <;> decide

/-- C6 (amended): the position rendered in the `at pos <position>.` part of
the `Display` output equals the error value's stored 0-indexed position for
`TokenError`, but the stored position plus one for `KeyError`
(src/lib.rs line 196 interpolates `self.pos + 1`). -/
theorem display_pos_marker :
    (∀ (pat : Str) (pos : Nat) (desc : Str),
      ("at pos ".toList ++ (Nat.repr pos).toList ++ ".".toList) <:+:
        displayError ⟨pat, pos, .TokenError desc⟩) ∧
    (∀ (pat : Str) (pos : Nat) (key : Str) (entries : List (Str × Str)),
      ("at pos ".toList ++ (Nat.repr (pos + 1)).toList ++ ".".toList) <:+:
        displayError ⟨pat, pos, .KeyError key entries⟩) := by
  constructor
  · intro pat pos desc
    refine ⟨"Parse arguments failed: Token Error (".toList ++ desc ++
      ") when parsing pattern \"".toList ++ pat ++ "\" ".toList, [], ?_⟩
    simp only [displayError]
    have hsplit : ("\" at pos ".toList : Str) =
        "\" ".toList ++ "at pos ".toList := by decide
    rw [hsplit]
    simp [List.append_assoc]
  · intro pat pos key entries
    refine ⟨"Parse arguments failed: Key Not Found (key: \"".toList ++ key ++
      "\") when parsing pattern \"".toList ++ pat ++ "\" ".toList,
      "\nHelp: These are valid key-value pairs:\n".toList ++
        List.intercalate "\n".toList (entries.map entryLine), ?_⟩
    simp only [displayError]
    have hsplit : ("\" at pos ".toList : Str) =
        "\" ".toList ++ "at pos ".toList := by decide
    have hsplit2 :
        (".\nHelp: These are valid key-value pairs:\n".toList : Str) =
          ".".toList ++ "\nHelp: These are valid key-value pairs:\n".toList :=
      by decide
    rw [hsplit, hsplit2]
    simp [List.append_assoc]

/-- Association-list lookup with duplicate-free keys depends only on the
set of key-value pairs, not on their order (the `HashMap::get` side of the
embedding). -/
theorem lookup_eq_of_perm {d₁ d₂ : List (Str × Str)} (hp : d₁.Perm d₂)
    (hn : (d₁.map Prod.fst).Nodup) (k : Str) :
    List.lookup k d₁ = List.lookup k d₂ := by
  induction hp with
  | nil => rfl
  | cons x hp ih =>
    obtain ⟨a, b⟩ := x
    have hn' : _ := (List.nodup_cons.mp hn).2
    cases hab : (k == a) <;> simp [List.lookup, hab, ih hn']
  | swap x y l =>
    obtain ⟨a, b⟩ := x
    obtain ⟨c, e⟩ := y
    have hne : c ≠ a := by
      have := (List.nodup_cons.mp hn).1
      intro hca
      exact this (by simp [hca])
    cases h1 : (k == c) <;> cases h2 : (k == a) <;>
      simp [List.lookup, h1, h2]
    have hkc : k = c := eq_of_beq h1
    have hka : k = a := eq_of_beq h2
    exact absurd (hkc.symm.trans hka) hne
  | trans hp1 hp2 ih1 ih2 =>
    rw [ih1 hn, ih2 (((hp1.map Prod.fst).nodup_iff).mp hn)]

/-- Equality of error kinds up to reordering of the `KeyError` entries
snapshot. -/
def kindPerm : DynamicFormatErrorKind → DynamicFormatErrorKind → Prop
  | .TokenError d₁, .TokenError d₂ => d₁ = d₂
  | .KeyError k₁ e₁, .KeyError k₂ e₂ => k₁ = k₂ ∧ e₁.Perm e₂
  | _, _ => False

/-- Equality of `dynamic_format` results up to reordering of the `KeyError`
entries snapshot: identical `Ok` values, or errors with identical pattern,
position and kind tag whose entries lists are permutations. -/
def resultPerm :
    Except DynamicFormatError Str → Except DynamicFormatError Str → Prop
  | .ok s, .ok t => s = t
  | .error e, .error f =>
    e.pattern = f.pattern ∧ e.pos = f.pos ∧ kindPerm e.kind f.kind
  | _, _ => False

/-- The scan loop run against two dictionaries holding the same pairs in
possibly different orders produces results equal up to reordering of the
`KeyError` entries snapshot. -/
theorem scanLoop_perm (p : Str) {d₁ d₂ : List (Str × Str)} (hp : d₁.Perm d₂)
    (hn : (d₁.map Prod.fst).Nodup) :
    ∀ (cs : Str) (i : Nat) (ans : Str) (lb rb : Bool × Nat) (key : Str),
      resultPerm (scanLoop p d₁ cs i ans lb rb key)
        (scanLoop p d₂ cs i ans lb rb key) := by
  intro cs
  induction cs with
  | nil =>
    intro i ans lb rb key
    obtain ⟨lbb, lbp⟩ := lb
    obtain ⟨rbb, rbp⟩ := rb
    cases lbb <;> cases rbb <;> simp [scanLoop, resultPerm, kindPerm]
  | cons c cs ih =>
    intro i ans lb rb key
    obtain ⟨lbb, lbp⟩ := lb
    obtain ⟨rbb, rbp⟩ := rb
    by_cases hc1 : c = '\x7b'
    · subst hc1
      cases lbb
      · exact ih (i + 1) ans (true, i) (rbb, rbp) key
      · by_cases hadj : lbp + 1 = i
        · rw [scanLoop_open_escape _ _ _ _ _ _ _ _ hadj,
            scanLoop_open_escape _ _ _ _ _ _ _ _ hadj]
          exact ih _ _ _ _ _
        · rw [scanLoop_open_nonadjacent _ _ _ _ _ _ _ _ hadj,
            scanLoop_open_nonadjacent _ _ _ _ _ _ _ _ hadj]
          simp [resultPerm, kindPerm]
    · by_cases hc2 : c = '\x7d'
      · subst hc2
        cases rbb
        · cases lbb
          · exact ih (i + 1) ans (false, lbp) (true, i) key
          · rw [scanLoop_close_placeholder, scanLoop_close_placeholder,
              ← lookup_eq_of_perm hp hn key]
            cases hfind : List.lookup key d₁ with
            | some s => exact ih _ _ _ _ _
            | none => exact ⟨rfl, rfl, rfl, hp⟩
        · by_cases hadj : rbp + 1 = i
          · rw [scanLoop_close_escape _ _ _ _ _ _ _ _ hadj,
              scanLoop_close_escape _ _ _ _ _ _ _ _ hadj]
            exact ih _ _ _ _ _
          · rw [scanLoop_close_nonadjacent _ _ _ _ _ _ _ _ hadj,
              scanLoop_close_nonadjacent _ _ _ _ _ _ _ _ hadj]
            simp [resultPerm, kindPerm]
      · cases lbb
        · rw [scanLoop_other_literal _ _ _ _ _ _ _ _ _ hc1 hc2,
            scanLoop_other_literal _ _ _ _ _ _ _ _ _ hc1 hc2]
          exact ih _ _ _ _ _
        · rw [scanLoop_other_in_key _ _ _ _ _ _ _ _ _ hc1 hc2,
            scanLoop_other_in_key _ _ _ _ _ _ _ _ _ hc1 hc2]
          exact ih _ _ _ _ _

/-- Counterexample to C8 as stated: two dictionaries containing exactly the
same key-value pairs (witnessed by the permutation conjunct) but presenting
them in different iteration orders give different results for the pattern
`"\x7bc\x7d"` — the `KeyError` entries snapshots list the pairs in the two
different orders. -/
theorem dynamic_format_determinism_counterexample :
    List.Perm [("a".toList, "1".toList), ("b".toList, "2".toList)]
        [("b".toList, "2".toList), ("a".toList, "1".toList)] ∧
      dynamic_format "\x7bc\x7d".toList
          [("a".toList, "1".toList), ("b".toList, "2".toList)] ≠
        dynamic_format "\x7bc\x7d".toList
          [("b".toList, "2".toList), ("a".toList, "1".toList)] := by
  constructor <;> decide

/-- C8 (amended): `dynamic_format` is deterministic up to the iteration
order of the dictionary: for the same pattern and two dictionaries holding
exactly the same key-value pairs (with duplicate-free keys) in possibly
different orders, the results coincide — same `Ok` output, or an error with
the same pattern, position and kind carrying the same key — except that the
`KeyError` entries lists enumerate the pairs in each dictionary's own
order, so they agree only up to permutation. -/
theorem dynamic_format_perm (p : Str) (d₁ d₂ : List (Str × Str))
    (hp : d₁.Perm d₂) (hn : (d₁.map Prod.fst).Nodup) :
    resultPerm (dynamic_format p d₁) (dynamic_format p d₂) := by
  unfold dynamic_format
  by_cases hbr : p.contains '\x7b' = false ∧ p.contains '\x7d' = false
  · rw [if_pos hbr, if_pos hbr]
    exact rfl
  · rw [if_neg hbr, if_neg hbr]
    exact scanLoop_perm p hp hn p 0 [] (false, 0) (false, 0) []

/-- Witness for C8 (amended): the reordered two-entry dictionaries from the
counterexample, on both a missing-key pattern and the general theorem's
hypotheses discharged concretely. -/
theorem dynamic_format_perm_witness :
    List.Perm [("a".toList, "1".toList), ("b".toList, "2".toList)]
        [("b".toList, "2".toList), ("a".toList, "1".toList)] ∧
      resultPerm
        (dynamic_format "\x7bc\x7d".toList
          [("a".toList, "1".toList), ("b".toList, "2".toList)])
        (dynamic_format "\x7bc\x7d".toList
          [("b".toList, "2".toList), ("a".toList, "1".toList)]) :=
  ⟨by decide, dynamic_format_perm _ _ _ (by decide) (by decide)⟩
